import Mathlib

set_option maxHeartbeats 1000000

/-!
Verification development for the robotoff OCR-insight extraction and
annotation core.

Text is modelled as `List Char` (a Python `str` is a sequence of code
points).  The `ProductInsight` persistence entity is referenced but not
defined in the sources at hand (only `robotoff/insights/annotate.py` uses
it), so its fields are modelled from the specification's `PendingInsight`
description.  Everything else is translated directly from
`scripts/generate_ocr_insight.py` and `robotoff/insights/annotate.py`.
-/

/-! ## Insight store entity (spec-modelled) and the reconciling annotator -/

/-- Modelled from the spec: the data payload of a `PendingInsight`.  The spec
says it "may include `start_offset`/`end_offset` marking a slice of a
reference text"; the `ingredient_spellcheck` annotator additionally reads
`data['correction']` and `data['original']`.  `extra` stands for any further
payload keys, so that frame conditions ("other fields unchanged") are
expressible. -/
structure InsightData where
  correction : List Char
  original : List Char
  start_offset : Int
  end_offset : Int
  extra : List (String × List Char)
  deriving DecidableEq

/-- Modelled from the spec: a `PendingInsight` row of the external store:
"barcode, type, a data payload ... and an annotation state".  The annotation
state is called `annotated` here (`None` = still pending). -/
structure ProductInsight where
  id : Nat
  barcode : List Char
  type : String
  annotated : Option Int
  data : InsightData
  deriving DecidableEq

def spellcheckType : String := "ingredient_spellcheck"

/-- `diff_len = len(insight.data['correction']) - len(insight.data['original'])`
from `IngredientSpellcheckAnnotator.annotate`. -/
def spellcheckDelta (ins : ProductInsight) : Int :=
  (ins.data.correction.length : Int) - (ins.data.original.length : Int)

/-- The `where` clause of the sibling query in
`IngredientSpellcheckAnnotator.annotate`:
`barcode == barcode, id != insight.id, type == 'ingredient_spellcheck'`.
Note that it does not inspect the annotation state. -/
def isSibling (ins o : ProductInsight) : Bool :=
  o.barcode == ins.barcode && o.id != ins.id && o.type == spellcheckType

/-- One sibling save: `other.data['start_offset'] += diff_len;
other.data['end_offset'] += diff_len; other.save()`. -/
def shiftInsight (d : Int) (o : ProductInsight) : ProductInsight :=
  { o with data := { o.data with
      start_offset := o.data.start_offset + d,
      end_offset := o.data.end_offset + d } }

/-- `IngredientSpellcheckAnnotator.annotate`, as a transformation of the
stored table together with the list of row ids written (`save()` calls).
If `diff_len == 0` the method returns before touching the database;
otherwise every row matched by the sibling query is shifted and saved. -/
def spellcheckRun (st : List ProductInsight) (ins : ProductInsight) :
    List ProductInsight × List Nat :=
  if spellcheckDelta ins = 0 then (st, [])
  else (st.map (fun o => if isSibling ins o then shiftInsight (spellcheckDelta ins) o else o),
        (st.filter (fun o => isSibling ins o)).map (fun o => o.id))

/-- The resulting stored state of `IngredientSpellcheckAnnotator.annotate`. -/
def spellcheckAnnotate (st : List ProductInsight) (ins : ProductInsight) :
    List ProductInsight :=
  (spellcheckRun st ins).1

/-- Modelled from the spec: the whole sibling loop runs inside
`with db.atomic():` (the peewee transaction wrapper, whose code is not under
src/).  Spec §6 requires the sibling update to be "expressed as a single
transactional unit", so an execution that fails partway through the block
(`abort = some k`, failure after `k` sibling saves) rolls every write of the
block back, leaving the state as it was on entry; `abort = none` is the
run that completes and commits. -/
def spellcheckExec (st : List ProductInsight) (ins : ProductInsight)
    (abort : Option Nat) : List ProductInsight :=
  if spellcheckDelta ins = 0 then st
  else
    match abort with
    | none => spellcheckAnnotate st ins
    | some _ => st

/-! Concrete store contents used by the witnesses (the spec §8 reconciliation
example: product `P`, pending insights `A{start:0,end:5}` and
`B{start:20,end:26}`, accepted insight `C` whose replacement is 3 characters
longer than its original). -/

def insA : ProductInsight :=
  { id := 1, barcode := ("P").data, type := "ingredient_spellcheck",
    annotated := none,
    data := { correction := [], original := [], start_offset := 0,
              end_offset := 5, extra := [("lang", ("fr").data)] } }

def insB : ProductInsight :=
  { id := 2, barcode := ("P").data, type := "ingredient_spellcheck",
    annotated := none,
    data := { correction := [], original := [], start_offset := 20,
              end_offset := 26, extra := [] } }

def insC : ProductInsight :=
  { id := 3, barcode := ("P").data, type := "ingredient_spellcheck",
    annotated := none,
    data := { correction := ("abcdef").data, original := ("abc").data,
              start_offset := 40, end_offset := 43, extra := [] } }

def stABC : List ProductInsight := [insA, insB, insC]

/-- An insight of the same product and type that is no longer pending
(already annotated), for the C10 witness. -/
def insD : ProductInsight :=
  { id := 4, barcode := ("Q").data, type := "ingredient_spellcheck",
    annotated := some 1,
    data := { correction := [], original := [], start_offset := 7,
              end_offset := 9, extra := [] } }

def insC10 : ProductInsight :=
  { id := 5, barcode := ("Q").data, type := "ingredient_spellcheck",
    annotated := none,
    data := { correction := ("xy").data, original := ("x").data,
              start_offset := 0, end_offset := 1, extra := [] } }

def stD : List ProductInsight := [insD]

/-- An accepted insight whose replacement has the same length as its
original (`delta = 0`), for the C5 witness. -/
def insSame : ProductInsight :=
  { id := 6, barcode := ("P").data, type := "ingredient_spellcheck",
    annotated := none,
    data := { correction := ("xyz").data, original := ("abc").data,
              start_offset := 10, end_offset := 13, extra := [] } }

/-! ## OCR provider payload and document model
(`scripts/generate_ocr_insight.py`) -/

/-- One entry of `boundingPoly.vertices`: `{x?, y?}` (either coordinate may
be absent; `point.get('x', 0)` defaults it to 0). -/
structure RawVertex where
  x : Option Int
  y : Option Int
  deriving DecidableEq

/-- One entry of the provider's `textAnnotations` array:
`{description, boundingPoly: {vertices}, locale?}`. -/
structure RawTextAnn where
  locale : Option (List Char)
  description : List Char
  vertices : List RawVertex
  deriving DecidableEq

/-- The provider's `fullTextAnnotation` object: `{text}`. -/
structure RawFullText where
  text : List Char
  deriving DecidableEq

/-- The provider payload handed to `OCRResult.__init__`: both top-level
fields are optional (`data.get(...)`). -/
structure RawData where
  textAnnotations : Option (List RawTextAnn)
  fullTextAnn : Option RawFullText
  deriving DecidableEq

/-- Python `str.replace('\n', ' ')` for the one-character pattern used by
`OCRFullTextAnnotation.__init__`: scan left to right, replacing each
occurrence of the newline by one space. -/
def pyReplaceNl : List Char → List Char
  | [] => []
  | c :: cs => if c = '\n' then ' ' :: pyReplaceNl cs else c :: pyReplaceNl cs

/-- Python `str.lower()` (ASCII case mapping suffices for every string this
development evaluates). -/
def lowerStr (s : List Char) : List Char :=
  s.map Char.toLower

/-- `class OCRTextAnnotation` (source name ends in a word this file avoids
as an identifier suffix; the structure is otherwise a field-for-field
translation). -/
structure OCRTextAnn where
  locale : Option (List Char)
  text : List Char
  bounding_poly : List (Int × Int)
  deriving DecidableEq

/-- `OCRTextAnnotation.__init__`. -/
def OCRTextAnn.ofData (d : RawTextAnn) : OCRTextAnn :=
  { locale := d.locale,
    text := d.description,
    bounding_poly := d.vertices.map (fun v => (v.x.getD 0, v.y.getD 0)) }

/-- `class OCRFullTextAnnotation`: `text`, the derived `contiguous_text`,
and the unused `pages` list. -/
structure OCRFullTextAnn where
  text : List Char
  contiguous_text : List Char
  pages : List Unit
  deriving DecidableEq

/-- `OCRFullTextAnnotation.__init__`:
`self.contiguous_text = self.text.replace('\n', ' '); self.pages = []`. -/
def OCRFullTextAnn.ofData (d : RawFullText) : OCRFullTextAnn :=
  { text := d.text, contiguous_text := pyReplaceNl d.text, pages := [] }

/-- `class OCRResult` (field `full_text_ann` translates
`full_text_annotation`). -/
structure OCRResult where
  text_annotations : List OCRTextAnn
  full_text_ann : Option OCRFullTextAnn

/-- `OCRResult.__init__`: `data.get('textAnnotations', [])` is appended
element-wise; `full_text_annotation` stays `None` unless
`data.get('fullTextAnnotation')` is truthy. -/
def OCRResult.ofData (d : RawData) : OCRResult :=
  { text_annotations := (d.textAnnotations.getD []).map OCRTextAnn.ofData,
    full_text_ann := d.fullTextAnn.map OCRFullTextAnn.ofData }

/-- `OCRResult.get_full_text`. -/
def OCRResult.get_full_text (o : OCRResult) (lowercase : Bool) :
    Option (List Char) :=
  match o.full_text_ann with
  | some f => if lowercase then some (lowerStr f.text) else some f.text
  | none => none

/-- `OCRResult.get_full_text_contiguous`. -/
def OCRResult.get_full_text_contiguous (o : OCRResult) (lowercase : Bool) :
    Option (List Char) :=
  match o.full_text_ann with
  | some f =>
    if lowercase then some (lowerStr f.contiguous_text)
    else some f.contiguous_text
  | none => none

/-- `OCRResult.iter_text_annotations`, exactly as written: when `lowercase`
is set the body yields the lowercased text AND then falls through to yield
the original text as well (there is no `else`). -/
def OCRResult.iter_text_annotations (o : OCRResult) (lowercase : Bool) :
    List (List Char) :=
  o.text_annotations.flatMap
    (fun ta => if lowercase then [lowerStr ta.text, ta.text] else [ta.text])

/-! ## Pattern matchers

Python `re` match objects are modelled by `RMatch` (`group(0)` plus the
numbered capture groups, absent optional groups being `none`).  Each
compiled pattern of the source is translated into an anchored-attempt
function `List Char → Option (List Char × RMatch)` returning the rest of
the input after the match; `finditer` drives it left to right,
non-overlapping, exactly like `re.finditer`.  Greedy quantifiers with
backtracking are translated pattern-by-pattern; where a quantifier's
follower set makes backtracking redundant this is noted inline. -/

structure RMatch where
  group0 : List Char
  groups : List (Option (List Char))
  deriving DecidableEq

/-- `match.group(i)` for `i ≥ 1` (absent group → `None`). -/
def RMatch.grp (m : RMatch) (i : Nat) : Option (List Char) :=
  (m.groups.getD (i - 1) none)

def isDigitC (c : Char) : Bool :=
  '0' ≤ c && c ≤ '9'

/-- Python `\s` on the ASCII range: space, tab, newline, carriage return,
vertical tab, form feed. -/
def isSpaceC (c : Char) : Bool :=
  c = ' ' || c = '\t' || c = '\n' || c = '\r' || c = '\x0b' || c = '\x0c'

/-- The character class `[\-\s.]`. -/
def sepClass (c : Char) : Bool :=
  c = '-' || isSpaceC c || c = '.'

/-- The character class `[\s.,)]`. -/
def endClass (c : Char) : Bool :=
  isSpaceC c || c = '.' || c = ',' || c = ')'

def letterC (c : Char) : Bool :=
  ('a' ≤ c && c ≤ 'z') || ('A' ≤ c && c ≤ 'Z')

def upperC (c : Char) : Bool :=
  'A' ≤ c && c ≤ 'Z'

/-- Match a literal, case-sensitively; returns the rest. -/
def stripLit : List Char → List Char → Option (List Char)
  | [], cs => some cs
  | _ :: _, [] => none
  | p :: ps, c :: cs => if c = p then stripLit ps cs else none

/-- Match a literal given in lowercase, ignoring case (`re.IGNORECASE`). -/
def stripLitCI : List Char → List Char → Option (List Char)
  | [], cs => some cs
  | _ :: _, [] => none
  | p :: ps, c :: cs => if c.toLower = p then stripLitCI ps cs else none

/-- Match one character of a class. -/
def classOne (p : Char → Bool) : List Char → Option (List Char)
  | c :: cs => if p c then some cs else none
  | [] => none

/-- Greedy optional literal with backtracking: `(?:lit)?` followed by
`after` — try consuming `lit` first, fall back to not consuming it. -/
def optLitThen (lit : List Char) (after : List Char → Option (List Char))
    (cs : List Char) : Option (List Char) :=
  match stripLit lit cs with
  | some r =>
    match after r with
    | some r2 => some r2
    | none => after cs
  | none => after cs

/-- `\d{1,3}` when the following pattern element cannot match a digit (as in
the `eu_fr` pattern, where a separator class or a space follows): greedy
matching with backtracking succeeds exactly when the maximal digit run at
this position has length 1..3, and then consumes all of it. -/
def takeDigits13 (cs : List Char) : Option (List Char × List Char) :=
  let p := cs.span isDigitC
  if 1 ≤ p.1.length && p.1.length ≤ 3 then some (p.1, p.2) else none

/-- `(n+1)` digits separated by optional single spaces: the regex fragment
`\d( ?\d)^n` from the `fr_emb` pattern, with full backtracking on each
optional space. -/
def matchDigitRun : Nat → List Char → Option (List Char × List Char)
  | _, [] => none
  | 0, c :: cs => if isDigitC c then some ([c], cs) else none
  | n + 1, c :: cs =>
    if isDigitC c then
      match cs with
      | ' ' :: cs2 =>
        (match matchDigitRun n cs2 with
         | some (m, r) => some (c :: ' ' :: m, r)
         | none =>
           match matchDigitRun n cs with
           | some (m, r) => some (c :: m, r)
           | none => none)
      | _ =>
        match matchDigitRun n cs with
        | some (m, r) => some (c :: m, r)
        | none => none
    else none

/-- The consumed prefix of an anchored attempt: the input minus the rest. -/
def consumedBy (cs rest : List Char) : List Char :=
  cs.take (cs.length - rest.length)

/-- `re.compile("(FR) (\d{1,3})[\-\s.](\d{1,3})[\-\s.](\d{1,3}) (CE|EC)")`
(the `eu_fr` pattern), attempted at the start of `cs`.  Note: no
`re.IGNORECASE`, so the uppercase literals only match uppercase input. -/
def euFrTry (cs : List Char) : Option (List Char × RMatch) := do
  let cs1 ← stripLit (("FR ").data) cs
  let (g2, cs2) ← takeDigits13 cs1
  let cs3 ← classOne sepClass cs2
  let (g3, cs4) ← takeDigits13 cs3
  let cs5 ← classOne sepClass cs4
  let (g4, cs6) ← takeDigits13 cs5
  let cs7 ← classOne (fun c => c = ' ') cs6
  let (g5, cs8) ←
    (match stripLit (("CE").data) cs7 with
     | some r => some (("CE").data, r)
     | none =>
       match stripLit (("EC").data) cs7 with
       | some r => some (("EC").data, r)
       | none => none)
  pure (cs8, { group0 := consumedBy cs cs8,
               groups := [some (("FR").data), some g2, some g3, some g4,
                          some g5] })

/-- `re.compile(r"(EMB) ?(\d ?\d ?\d ?\d ?\d)([a-zA-Z]{1,2})?")` (the
`fr_emb` pattern), attempted at the start of `cs`.  The ` ?` after `EMB` is
greedy with backtracking; group 2 must begin with a digit either way. -/
def frEmbTry (cs : List Char) : Option (List Char × RMatch) := do
  let cs1 ← stripLit (("EMB").data) cs
  let (g2, cs2) ←
    (match cs1 with
     | ' ' :: r =>
       (match matchDigitRun 4 r with
        | some x => some x
        | none => matchDigitRun 4 cs1)
     | _ => matchDigitRun 4 cs1)
  let p3 :=
    match cs2 with
    | a :: b :: r =>
      if letterC a then
        (if letterC b then (some [a, b], r) else (some [a], b :: r))
      else (none, cs2)
    | a :: r => if letterC a then ((some [a] : Option (List Char)), r) else (none, cs2)
    | [] => (none, cs2)
  pure (p3.2, { group0 := consumedBy cs p3.2,
                groups := [some (("EMB").data), some g2, p3.1] })

/-- `re.compile(r"ingr[ée]dients?\sbiologiques?", re.IGNORECASE)`.
The greedy `s?` before `\s` needs no backtracking (`'s'` is not
whitespace), and the trailing `s?` has no follower. -/
def lab1Try (cs : List Char) : Option (List Char × RMatch) := do
  let cs1 ← stripLitCI (("ingr").data) cs
  let cs2 ← classOne (fun c => c.toLower = 'é' || c.toLower = 'e') cs1
  let cs3 ← stripLitCI (("dient").data) cs2
  let cs4 := match cs3 with
             | c :: r => if c.toLower = 's' then r else cs3
             | [] => cs3
  let cs5 ← classOne isSpaceC cs4
  let cs6 ← stripLitCI (("biologique").data) cs5
  let cs7 := match cs6 with
             | c :: r => if c.toLower = 's' then r else cs6
             | [] => cs6
  pure (cs7, { group0 := consumedBy cs cs7, groups := [] })

/-- `re.compile(r"ingr[ée]dients?\sbio[\s.,)]")` (case-sensitive). -/
def lab2Try (cs : List Char) : Option (List Char × RMatch) := do
  let cs1 ← stripLit (("ingr").data) cs
  let cs2 ← classOne (fun c => c = 'é' || c = 'e') cs1
  let cs3 ← stripLit (("dient").data) cs2
  let cs4 := match cs3 with
             | c :: r => if c = 's' then r else cs3
             | [] => cs3
  let cs5 ← classOne isSpaceC cs4
  let cs6 ← stripLit (("bio").data) cs5
  let cs7 ← classOne endClass cs6
  pure (cs7, { group0 := consumedBy cs cs7, groups := [] })

/-- `re.compile(r"agriculture ue/non ue biologique")`. -/
def lab3Try (cs : List Char) : Option (List Char × RMatch) := do
  let cs1 ← stripLit (("agriculture ue/non ue biologique").data) cs
  pure (cs1, { group0 := consumedBy cs cs1, groups := [] })

/-- `re.compile(r"agriculture bio(?:logique)?[\s.,)]")`, greedy optional
`logique` with backtracking. -/
def lab4Try (cs : List Char) : Option (List Char × RMatch) := do
  let cs1 ← stripLit (("agriculture bio").data) cs
  let cs2 ← optLitThen (("logique").data) (classOne endClass) cs1
  pure (cs2, { group0 := consumedBy cs cs2, groups := [] })

/-- `re.compile(r"production bio(?:logique)?[\s.,)]")`. -/
def lab5Try (cs : List Char) : Option (List Char × RMatch) := do
  let cs1 ← stripLit (("production bio").data) cs
  let cs2 ← optLitThen (("logique").data) (classOne endClass) cs1
  pure (cs2, { group0 := consumedBy cs cs2, groups := [] })

/-- `re.compile(r"([A-Z]{2})[\-\s.](BIO|ÖKO)[\-\s.](\d{2,3})")` (the
`xx-bio-xx` pattern).  The final `\d{2,3}` is greedy with no follower: it
takes up to three digits and needs at least two. -/
def bioTry (cs : List Char) : Option (List Char × RMatch) := do
  let (g1, cs1) ←
    (match cs with
     | a :: b :: r =>
       if upperC a && upperC b then some (([a, b] : List Char), r) else none
     | _ => none)
  let cs2 ← classOne sepClass cs1
  let (g2, cs3) ←
    (match stripLit (("BIO").data) cs2 with
     | some r => some (("BIO").data, r)
     | none =>
       match stripLit (("ÖKO").data) cs2 with
       | some r => some (("ÖKO").data, r)
       | none => none)
  let cs4 ← classOne sepClass cs3
  let p := cs4.span isDigitC
  let (g3, cs5) ←
    (if 3 ≤ p.1.length then some (p.1.take 3, p.1.drop 3 ++ p.2)
     else if p.1.length = 2 then some (p.1, p.2)
     else none)
  pure (cs5, { group0 := consumedBy cs cs5,
               groups := [some g1, some g2, some g3] })

/-- `re.compile(r"certifi[ée] ab[\s.,)]")`. -/
def lab7Try (cs : List Char) : Option (List Char × RMatch) := do
  let cs1 ← stripLit (("certifi").data) cs
  let cs2 ← classOne (fun c => c = 'é' || c = 'e') cs1
  let cs3 ← stripLit ((" ab").data) cs2
  let cs4 ← classOne endClass cs3
  pure (cs4, { group0 := consumedBy cs cs4, groups := [] })

/-- `re.finditer`: scan left to right, emitting non-overlapping matches and
resuming after each match.  Every pattern in this file consumes at least one
character on success, so fuel `s.length` never runs out early. -/
def finditerAux (tryAt : List Char → Option (List Char × RMatch)) :
    Nat → List Char → List RMatch
  | 0, _ => []
  | _ + 1, [] => []
  | fuel + 1, c :: rest =>
    match tryAt (c :: rest) with
    | some (rem, m) => m :: finditerAux tryAt fuel rem
    | none => finditerAux tryAt fuel rest

def finditer (tryAt : List Char → Option (List Char × RMatch))
    (s : List Char) : List RMatch :=
  finditerAux tryAt s.length s

/-! ## Pattern registry and extraction engine -/

/-- `class OCRField(enum.Enum)`.  The constructor modelling
`text_annotations` is named `annotations_field` (same enum member,
different identifier). -/
inductive OCRField where
  | full_text
  | full_text_contiguous
  | annotations_field
  deriving DecidableEq

/-- `class OCRRegex`: compiled pattern (as its anchored-attempt function),
target field, lowercase flag, optional processing function. -/
structure OCRRegex where
  regex : List Char → Option (List Char × RMatch)
  field : OCRField
  lowercase : Bool
  processing_func : Option (RMatch → List Char)

/-- `OCRResult.get_text`: dispatch on the matcher's field.  For the
full-text fields Python's `if text:` also drops an empty string; the
`else: raise ValueError(...)` branch is unreachable because the enum has
exactly the three members matched here. -/
def OCRResult.get_text (o : OCRResult) (rx : OCRRegex) :
    List (List Char) :=
  match rx.field with
  | OCRField.full_text =>
    (match o.get_full_text rx.lowercase with
     | some t => if t = [] then [] else [t]
     | none => [])
  | OCRField.full_text_contiguous =>
    (match o.get_full_text_contiguous rx.lowercase with
     | some t => if t = [] then [] else [t]
     | none => [])
  | OCRField.annotations_field => o.iter_text_annotations rx.lowercase

/-- `process_fr_packaging_match`: `"{} {}.{}.{} {}".format(...)` over
groups 1..5 (always bound when the `eu_fr` pattern matches, so the `none`
default below is never exercised). -/
def process_fr_packaging_match (m : RMatch) : List Char :=
  (m.grp 1).getD [] ++ [' '] ++ (m.grp 2).getD [] ++ ['.'] ++
    (m.grp 3).getD [] ++ ['.'] ++ (m.grp 4).getD [] ++ [' '] ++
    (m.grp 5).getD []

/-- `process_fr_emb_match`: `"{} {}{}"` with the city code's spaces removed
and `company_code or ''` defaulting the absent group 3. -/
def process_fr_emb_match (m : RMatch) : List Char :=
  (m.grp 1).getD [] ++ [' '] ++
    ((m.grp 2).getD []).filter (fun c => c ≠ ' ') ++ (m.grp 3).getD []

/-- `process_eu_bio_label_code`: `"{}-{}-{}"` over groups 1..3. -/
def process_eu_bio_label_code (m : RMatch) : List Char :=
  (m.grp 1).getD [] ++ ['-'] ++ (m.grp 2).getD [] ++ ['-'] ++
    (m.grp 3).getD []

def frEmbRegex : OCRRegex :=
  { regex := frEmbTry, field := OCRField.annotations_field,
    lowercase := true, processing_func := some process_fr_emb_match }

def euFrRegex : OCRRegex :=
  { regex := euFrTry, field := OCRField.full_text_contiguous,
    lowercase := true, processing_func := some process_fr_packaging_match }

/-- `PACKAGER_CODE`, in dict insertion order. -/
def PACKAGER_CODE : List (String × OCRRegex) :=
  [("fr_emb", frEmbRegex), ("eu_fr", euFrRegex)]

def lab1Regex : OCRRegex :=
  { regex := lab1Try, field := OCRField.full_text_contiguous,
    lowercase := true, processing_func := none }

def lab2Regex : OCRRegex :=
  { regex := lab2Try, field := OCRField.full_text_contiguous,
    lowercase := true, processing_func := none }

def lab3Regex : OCRRegex :=
  { regex := lab3Try, field := OCRField.full_text_contiguous,
    lowercase := true, processing_func := none }

def lab4Regex : OCRRegex :=
  { regex := lab4Try, field := OCRField.full_text_contiguous,
    lowercase := true, processing_func := none }

def lab5Regex : OCRRegex :=
  { regex := lab5Try, field := OCRField.full_text_contiguous,
    lowercase := true, processing_func := none }

def bioRegex : OCRRegex :=
  { regex := bioTry, field := OCRField.annotations_field,
    lowercase := false, processing_func := some process_eu_bio_label_code }

def lab7Regex : OCRRegex :=
  { regex := lab7Try, field := OCRField.full_text_contiguous,
    lowercase := true, processing_func := none }

/-- `LABELS_REGEX`, in dict insertion order. -/
def LABELS_REGEX : List (String × List OCRRegex) :=
  [("en:organic", [lab1Regex, lab2Regex, lab3Regex, lab4Regex, lab5Regex]),
   ("xx-bio-xx", [bioRegex]),
   ("fr:ab-agriculture-biologique", [lab7Regex])]

/-- The transient insight record: a Python dict with string keys. -/
abbrev Dict : Type :=
  List (String × List Char)

/-- One `results.append({...})` of `find_packager_codes`: keys `raw`,
`text`, `type` in source order.  `find_packager_codes` calls
`processing_func` unconditionally; both `PACKAGER_CODE` entries define it,
so the `group0` default is never exercised. -/
def packagerRecord (code : String) (rx : OCRRegex) (m : RMatch) : Dict :=
  [("raw", m.group0),
   ("text", (match rx.processing_func with
             | some f => f m
             | none => m.group0)),
   ("type", code.data)]

/-- `find_packager_codes`: the source's nested loops appending to one
`results` list, translated fold-for-loop. -/
def find_packager_codes (o : OCRResult) : List Dict :=
  PACKAGER_CODE.foldl
    (fun acc p =>
      (o.get_text p.2).foldl
        (fun acc2 txt =>
          (finditer p.2.regex txt).foldl
            (fun acc3 m => acc3 ++ [packagerRecord p.1 p.2 m]) acc2)
        acc)
    []

/-- One `results.append({...})` of `find_labels`: `label_value` is
`processing_func(match)` when the matcher has one, else the category tag. -/
def labelRecord (label_tag : String) (rx : OCRRegex) (m : RMatch) : Dict :=
  [("label_tag", (match rx.processing_func with
                  | some f => f m
                  | none => label_tag.data)),
   ("text", m.group0)]

/-- `find_labels`. -/
def find_labels (o : OCRResult) : List Dict :=
  LABELS_REGEX.foldl
    (fun acc p =>
      p.2.foldl
        (fun acc1 rx =>
          (o.get_text rx).foldl
            (fun acc2 txt =>
              (finditer rx.regex txt).foldl
                (fun acc3 m => acc3 ++ [labelRecord p.1 rx m]) acc2)
            acc1)
        acc)
    []

/-- `extract_insights`: only `packager_code` and `label` are live in the
source (the other branches are commented out there); anything else raises
`ValueError("unknown insight type: ...")`, modelled as `Except.error`. -/
def extract_insights (o : OCRResult) (insight_type : String) :
    Except String (List Dict) :=
  if insight_type = "packager_code" then Except.ok (find_packager_codes o)
  else if insight_type = "label" then Except.ok (find_labels o)
  else Except.error ("unknown insight type: " ++ insight_type)

/-! ## Annotator factory (`robotoff/insights/annotate.py`) -/

/-- Which concrete `InsightAnnotator` subclass the factory instantiates. -/
inductive AnnotatorKind where
  | packagerCode
  | ingredientSpellcheck
  deriving DecidableEq

/-- `InsightAnnotatorFactory.mapping`. -/
def annotatorMapping : List (String × AnnotatorKind) :=
  [("packager_code", AnnotatorKind.packagerCode),
   ("ingredient_spellcheck", AnnotatorKind.ingredientSpellcheck)]

/-- `InsightAnnotatorFactory.create`: unregistered identifiers raise
`ValueError("unknown annotator: ...")`, modelled as `Except.error`. -/
def InsightAnnotatorFactory.create (identifier : String) :
    Except String AnnotatorKind :=
  match annotatorMapping.lookup identifier with
  | some k => Except.ok k
  | none => Except.error ("unknown annotator: " ++ identifier)

/-! ## Concrete documents for the witnesses and counterexample evaluations -/

/-- Provider payload whose contiguous text is exactly
`"FR 83.400.011 CE"` (no newline), with no text regions. -/
def c1raw : RawData :=
  { textAnnotations := none,
    fullTextAnn := some { text := ("FR 83.400.011 CE").data } }

def c1doc : OCRResult :=
  OCRResult.ofData c1raw

/-- Provider payload with a single text region `"AB"`. -/
def c2raw : RawData :=
  { textAnnotations := some [{ locale := none, description := ("AB").data,
                               vertices := [] }],
    fullTextAnn := none }

def c2doc : OCRResult :=
  OCRResult.ofData c2raw

/-- The empty provider payload. -/
def c0raw : RawData :=
  { textAnnotations := none, fullTextAnn := none }

def c0doc : OCRResult :=
  OCRResult.ofData c0raw

/-- Payload whose full text contains a newline. -/
def c8raw : RawData :=
  { textAnnotations := none, fullTextAnn := some { text := ("a\nb").data } }

def c8full : RawFullText :=
  { text := ("a\nb").data }


/-! ## Helper lemmas -/

theorem pyReplaceNl_eq_map (s : List Char) :
    pyReplaceNl s = s.map (fun c => if c = '\n' then ' ' else c) := by
  induction s with
  | nil => rfl
  | cons c cs ih => by_cases h : c = '\n' <;> simp [pyReplaceNl, h, ih]

theorem pyReplaceNl_length (s : List Char) :
    (pyReplaceNl s).length = s.length := by
  rw [pyReplaceNl_eq_map]
  simp

theorem foldl_append_singleton {α β : Type} (g : α → β) :
    ∀ (l : List α) (acc : List β),
      l.foldl (fun a x => a ++ [g x]) acc = acc ++ l.map g := by
  intro l
  induction l with
  | nil => intro acc; simp
  | cons x xs ih => intro acc; simp [ih]

theorem foldl_append_flat {α β : Type} (f : α → List β) :
    ∀ (l : List α) (acc : List β),
      l.foldl (fun a x => a ++ f x) acc = acc ++ l.flatMap f := by
  intro l
  induction l with
  | nil => intro acc; simp
  | cons x xs ih => intro acc; simp [ih]

/-! ## Claim theorems -/

/-- Claim C3: for every annotated `ingredient_spellcheck` insight whose
replacement differs in length from its original by `delta ≠ 0`, the
reconciling `annotate` shifts both `start_offset` and `end_offset` of every
other still-pending insight with the same barcode and type by exactly
`delta`, and leaves those siblings' other fields unchanged. -/
theorem claim_C3_shift_pending_siblings
    (st : List ProductInsight) (ins : ProductInsight) (k : Nat)
    (hk : k < st.length) (hk2 : k < (spellcheckAnnotate st ins).length)
    (hd : spellcheckDelta ins ≠ 0)
    (hb : (st.get ⟨k, hk⟩).barcode = ins.barcode)
    (hid : (st.get ⟨k, hk⟩).id ≠ ins.id)
    (ht : (st.get ⟨k, hk⟩).type = spellcheckType)
    (_hp : (st.get ⟨k, hk⟩).annotated = none) :
    ((spellcheckAnnotate st ins).get ⟨k, hk2⟩).data.start_offset
        = (st.get ⟨k, hk⟩).data.start_offset + spellcheckDelta ins
    ∧ ((spellcheckAnnotate st ins).get ⟨k, hk2⟩).data.end_offset
        = (st.get ⟨k, hk⟩).data.end_offset + spellcheckDelta ins
    ∧ ((spellcheckAnnotate st ins).get ⟨k, hk2⟩).id = (st.get ⟨k, hk⟩).id
    ∧ ((spellcheckAnnotate st ins).get ⟨k, hk2⟩).barcode
        = (st.get ⟨k, hk⟩).barcode
    ∧ ((spellcheckAnnotate st ins).get ⟨k, hk2⟩).type = (st.get ⟨k, hk⟩).type
    ∧ ((spellcheckAnnotate st ins).get ⟨k, hk2⟩).annotated
        = (st.get ⟨k, hk⟩).annotated
    ∧ ((spellcheckAnnotate st ins).get ⟨k, hk2⟩).data.correction
        = (st.get ⟨k, hk⟩).data.correction
    ∧ ((spellcheckAnnotate st ins).get ⟨k, hk2⟩).data.original
        = (st.get ⟨k, hk⟩).data.original
    ∧ ((spellcheckAnnotate st ins).get ⟨k, hk2⟩).data.extra
        = (st.get ⟨k, hk⟩).data.extra := by
  simp only [List.get_eq_getElem] at hb hid ht ⊢
  have hget : (spellcheckAnnotate st ins)[k]
      = shiftInsight (spellcheckDelta ins) st[k] := by
    have hs : isSibling ins st[k] = true := by
      simp [isSibling, hb, ht, hid]
    simp only [spellcheckAnnotate, spellcheckRun, if_neg hd,
      List.getElem_map, hs, if_true]
  rw [hget]
  simp [shiftInsight]

/-- Witness for C3: the spec §8 example.  Accepting `C` (replacement 3
characters longer) shifts the still-pending `A{0,5}` at index 0 of the
store by `+3` on both offsets, all other fields untouched. -/
theorem claim_C3_witness :
    ((spellcheckAnnotate stABC insC).get ⟨0, by decide⟩).data.start_offset
        = ((stABC.get ⟨0, by decide⟩)).data.start_offset + spellcheckDelta insC
    ∧ ((spellcheckAnnotate stABC insC).get ⟨0, by decide⟩).data.end_offset
        = ((stABC.get ⟨0, by decide⟩)).data.end_offset + spellcheckDelta insC
    ∧ ((spellcheckAnnotate stABC insC).get ⟨0, by decide⟩).id
        = ((stABC.get ⟨0, by decide⟩)).id
    ∧ ((spellcheckAnnotate stABC insC).get ⟨0, by decide⟩).barcode
        = ((stABC.get ⟨0, by decide⟩)).barcode
    ∧ ((spellcheckAnnotate stABC insC).get ⟨0, by decide⟩).type
        = ((stABC.get ⟨0, by decide⟩)).type
    ∧ ((spellcheckAnnotate stABC insC).get ⟨0, by decide⟩).annotated
        = ((stABC.get ⟨0, by decide⟩)).annotated
    ∧ ((spellcheckAnnotate stABC insC).get ⟨0, by decide⟩).data.correction
        = ((stABC.get ⟨0, by decide⟩)).data.correction
    ∧ ((spellcheckAnnotate stABC insC).get ⟨0, by decide⟩).data.original
        = ((stABC.get ⟨0, by decide⟩)).data.original
    ∧ ((spellcheckAnnotate stABC insC).get ⟨0, by decide⟩).data.extra
        = ((stABC.get ⟨0, by decide⟩)).data.extra :=
  claim_C3_shift_pending_siblings stABC insC 0 (by decide) (by decide)
    (by decide) (by decide) (by decide) (by decide) (by decide)

/-- Claim C10 (implicit): the sibling query filters only on barcode,
insight id and type — not on annotation state — so with `delta ≠ 0` even an
insight that is no longer pending (`annotated = some a`) has its offsets
shifted. -/
theorem claim_C10_shifts_already_annotated
    (st : List ProductInsight) (ins : ProductInsight) (k : Nat) (a : Int)
    (hk : k < st.length) (hk2 : k < (spellcheckAnnotate st ins).length)
    (hd : spellcheckDelta ins ≠ 0)
    (hb : (st.get ⟨k, hk⟩).barcode = ins.barcode)
    (hid : (st.get ⟨k, hk⟩).id ≠ ins.id)
    (ht : (st.get ⟨k, hk⟩).type = spellcheckType)
    (ha : (st.get ⟨k, hk⟩).annotated = some a) :
    ((spellcheckAnnotate st ins).get ⟨k, hk2⟩).data.start_offset
        = (st.get ⟨k, hk⟩).data.start_offset + spellcheckDelta ins
    ∧ ((spellcheckAnnotate st ins).get ⟨k, hk2⟩).data.end_offset
        = (st.get ⟨k, hk⟩).data.end_offset + spellcheckDelta ins
    ∧ ((spellcheckAnnotate st ins).get ⟨k, hk2⟩).annotated = some a := by
  simp only [List.get_eq_getElem] at hb hid ht ha ⊢
  have hget : (spellcheckAnnotate st ins)[k]
      = shiftInsight (spellcheckDelta ins) st[k] := by
    have hs : isSibling ins st[k] = true := by
      simp [isSibling, hb, ht, hid]
    simp only [spellcheckAnnotate, spellcheckRun, if_neg hd,
      List.getElem_map, hs, if_true]
  rw [hget]
  simp [shiftInsight, ha]

/-- Witness for C10: annotating `insC10` (delta `+1`) on a store holding
only the already-annotated `insD` still shifts `insD`'s offsets. -/
theorem claim_C10_witness :
    ((spellcheckAnnotate stD insC10).get ⟨0, by decide⟩).data.start_offset
        = ((stD.get ⟨0, by decide⟩)).data.start_offset + spellcheckDelta insC10
    ∧ ((spellcheckAnnotate stD insC10).get ⟨0, by decide⟩).data.end_offset
        = ((stD.get ⟨0, by decide⟩)).data.end_offset + spellcheckDelta insC10
    ∧ ((spellcheckAnnotate stD insC10).get ⟨0, by decide⟩).annotated = some 1 :=
  claim_C10_shifts_already_annotated stD insC10 0 1 (by decide) (by decide)
    (by decide) (by decide) (by decide) (by decide) (by decide)

/-- Claim C4: with `delta ≠ 0` the sibling update is atomic — the committed
run yields the fully-updated state, and every aborted run leaves the state
exactly as it was (no sibling remains shifted); every execution lands in one
of those two states. -/
theorem claim_C4_atomic_sibling_update
    (st : List ProductInsight) (ins : ProductInsight)
    (hd : spellcheckDelta ins ≠ 0) :
    spellcheckExec st ins none = spellcheckAnnotate st ins
    ∧ (∀ k, spellcheckExec st ins (some k) = st)
    ∧ (∀ ab, spellcheckExec st ins ab = spellcheckAnnotate st ins
          ∨ spellcheckExec st ins ab = st) := by
  refine ⟨by simp [spellcheckExec, hd], fun k => by simp [spellcheckExec, hd],
    fun ab => ?_⟩
  cases ab with
  | none => exact Or.inl (by simp [spellcheckExec, hd])
  | some k => exact Or.inr (by simp [spellcheckExec, hd])

/-- Witness for C4 at the spec §8 store: committed run = full update,
a run aborted after one save = untouched store. -/
theorem claim_C4_witness :
    spellcheckExec stABC insC none = spellcheckAnnotate stABC insC
    ∧ spellcheckExec stABC insC (some 1) = stABC :=
  ⟨(claim_C4_atomic_sibling_update stABC insC (by decide)).1,
   (claim_C4_atomic_sibling_update stABC insC (by decide)).2.1 1⟩

/-- Claim C5: with `delta = 0` the reconciling `annotate` short-circuits:
the stored state is returned unchanged and not a single row is written. -/
theorem claim_C5_delta_zero_no_write
    (st : List ProductInsight) (ins : ProductInsight)
    (hd : spellcheckDelta ins = 0) :
    spellcheckRun st ins = (st, []) ∧ spellcheckAnnotate st ins = st := by
  constructor
  · simp [spellcheckRun, hd]
  · simp [spellcheckAnnotate, spellcheckRun, hd]

/-- Witness for C5: `insSame` (replacement of the same length as the
original) leaves the spec §8 store untouched and issues no write. -/
theorem claim_C5_witness :
    spellcheckRun stABC insSame = (stABC, [])
    ∧ spellcheckAnnotate stABC insSame = stABC :=
  claim_C5_delta_zero_no_write stABC insSame (by decide)

/-- Claim C1, evaluated at the failing input (code_bug): for the document
whose contiguous text is exactly `"FR 83.400.011 CE"`, the `eu_fr` matcher
requests `lowercase=True`, so `get_text` hands the pattern the lowercased
text — on which the case-sensitive pattern `(FR) ... (CE|EC)` has no match —
and `extract(document, 'packager_code')` emits no record at all, not the one
record the claim requires.  The second conjunct shows the pattern does match
the original-case text, so the lowercasing alone kills the match. -/
theorem claim_C1_eval :
    OCRResult.get_full_text_contiguous c1doc true
        = some (("fr 83.400.011 ce").data)
    ∧ OCRResult.get_text c1doc euFrRegex = [("fr 83.400.011 ce").data]
    ∧ (finditer euFrTry (("FR 83.400.011 CE").data)).map (fun m => m.group0)
        = [("FR 83.400.011 CE").data]
    ∧ finditer euFrTry (("fr 83.400.011 ce").data) = []
    ∧ find_packager_codes c1doc = []
    ∧ extract_insights c1doc ("packager_code") = Except.ok [] :=
  ⟨by decide, by decide, by decide, by decide, by decide, rfl⟩

/-- Claim C2, evaluated at the failing input (code_bug): for a matcher over
per-region text with `lowercase=True` (the `fr_emb` matcher) and a document
with the single region `"AB"`, the candidate strings are NOT one lowercased
string per region: the missing `else` in `iter_text_annotations` makes each
region contribute its lowercased text AND its original text. -/
theorem claim_C2_eval :
    OCRResult.iter_text_annotations c2doc true = [("ab").data, ("AB").data]
    ∧ OCRResult.get_text c2doc frEmbRegex = [("ab").data, ("AB").data] :=
  ⟨by decide, by decide⟩

/-- Claim C6: every unregistered insight-type identifier makes
`extract_insights` fail with the unknown-insight-type error, and every
identifier outside the factory mapping makes `create` fail with the
unknown-annotator error — never an empty result or a silent no-op. -/
theorem claim_C6_unknown_identifiers
    (o : OCRResult) (t ident : String)
    (h1 : t ≠ "packager_code") (h2 : t ≠ "label")
    (h3 : ident ≠ "packager_code") (h4 : ident ≠ "ingredient_spellcheck") :
    extract_insights o t = Except.error ("unknown insight type: " ++ t)
    ∧ InsightAnnotatorFactory.create ident
        = Except.error ("unknown annotator: " ++ ident) := by
  constructor
  · simp [extract_insights, h1, h2]
  · have hb3 : (ident == "packager_code") = false := by
      simp [beq_eq_false_iff_ne, h3]
    have hb4 : (ident == "ingredient_spellcheck") = false := by
      simp [beq_eq_false_iff_ne, h4]
    simp [InsightAnnotatorFactory.create, annotatorMapping, List.lookup,
      hb3, hb4]

/-- Witness for C6 at the unregistered identifier `"bogus"`. -/
theorem claim_C6_witness :
    extract_insights c0doc ("bogus")
        = Except.error ("unknown insight type: " ++ "bogus")
    ∧ InsightAnnotatorFactory.create ("bogus")
        = Except.error ("unknown annotator: " ++ "bogus") :=
  claim_C6_unknown_identifiers c0doc ("bogus") ("bogus")
    (by decide) (by decide) (by decide) (by decide)

/-- Claim C7: building an `OCRResult` never fails on absent optional
top-level payload data — a missing `textAnnotations` yields an empty region
sequence, and a missing `fullTextAnnotation` makes both full-text queries
return nothing (for either lowercase flag). -/
theorem claim_C7_optional_payload_fields (d : RawData) :
    (d.textAnnotations = none → (OCRResult.ofData d).text_annotations = [])
    ∧ (d.fullTextAnn = none →
        (∀ lc, (OCRResult.ofData d).get_full_text lc = none)
        ∧ (∀ lc, (OCRResult.ofData d).get_full_text_contiguous lc = none)) := by
  constructor
  · intro h
    simp [OCRResult.ofData, h]
  · intro h
    constructor <;> intro lc <;>
      simp [OCRResult.ofData, OCRResult.get_full_text,
        OCRResult.get_full_text_contiguous, h]

/-- Witness for C7 at the empty provider payload. -/
theorem claim_C7_witness :
    (OCRResult.ofData c0raw).text_annotations = []
    ∧ (OCRResult.ofData c0raw).get_full_text true = none
    ∧ (OCRResult.ofData c0raw).get_full_text false = none
    ∧ (OCRResult.ofData c0raw).get_full_text_contiguous true = none
    ∧ (OCRResult.ofData c0raw).get_full_text_contiguous false = none :=
  ⟨(claim_C7_optional_payload_fields c0raw).1 rfl,
   ((claim_C7_optional_payload_fields c0raw).2 rfl).1 true,
   ((claim_C7_optional_payload_fields c0raw).2 rfl).1 false,
   ((claim_C7_optional_payload_fields c0raw).2 rfl).2 true,
   ((claim_C7_optional_payload_fields c0raw).2 rfl).2 false⟩

/-- Claim C8: for a document with a full-text payload, the stored
contiguous text is computed at construction as the full text with every
newline replaced by exactly one space (charwise, length-preserving), and
the contiguous-text query only reads that stored field (optionally
lowercasing it) — it never re-derives it. -/
theorem claim_C8_contiguous_once
    (d : RawData) (f : RawFullText) (h : d.fullTextAnn = some f) :
    (OCRResult.ofData d).full_text_ann = some (OCRFullTextAnn.ofData f)
    ∧ (OCRFullTextAnn.ofData f).contiguous_text = pyReplaceNl f.text
    ∧ pyReplaceNl f.text = f.text.map (fun c => if c = '\n' then ' ' else c)
    ∧ (pyReplaceNl f.text).length = f.text.length
    ∧ (∀ lc, (OCRResult.ofData d).get_full_text_contiguous lc
        = some (if lc then lowerStr (pyReplaceNl f.text)
                else pyReplaceNl f.text)) := by
  refine ⟨by simp [OCRResult.ofData, h], rfl, pyReplaceNl_eq_map f.text,
    pyReplaceNl_length f.text, fun lc => ?_⟩
  cases lc <;>
    simp [OCRResult.ofData, h, OCRResult.get_full_text_contiguous,
      OCRFullTextAnn.ofData]

/-- Witness for C8: the full text `"a\nb"` is stored with contiguous text
`"a b"`, and that is what the query returns. -/
theorem claim_C8_witness :
    (OCRResult.ofData c8raw).get_full_text_contiguous false
        = some (("a b").data) := by
  have h := claim_C8_contiguous_once c8raw c8full rfl
  rw [h.2.2.2.2 false]
  decide

/-- Claim C9: `extract_insights` is a pure function — two calls on the same
document and category return the same value — and for each registered
category its output is exactly the deterministically ordered concatenation:
matchers in registry order, then candidate strings in `get_text` order,
then matches in left-to-right order within each candidate. -/
theorem claim_C9_deterministic_ordered (o : OCRResult) :
    (∀ t, extract_insights o t = extract_insights o t)
    ∧ extract_insights o ("packager_code")
        = Except.ok (PACKAGER_CODE.flatMap (fun p =>
            (o.get_text p.2).flatMap (fun txt =>
              (finditer p.2.regex txt).map (packagerRecord p.1 p.2))))
    ∧ extract_insights o ("label")
        = Except.ok (LABELS_REGEX.flatMap (fun p =>
            p.2.flatMap (fun rx =>
              (o.get_text rx).flatMap (fun txt =>
                (finditer rx.regex txt).map (labelRecord p.1 rx))))) := by
  have hp : find_packager_codes o
      = PACKAGER_CODE.flatMap (fun p =>
          (o.get_text p.2).flatMap (fun txt =>
            (finditer p.2.regex txt).map (packagerRecord p.1 p.2))) := by
    simp only [find_packager_codes, foldl_append_singleton,
      foldl_append_flat, List.nil_append]
  have hl : find_labels o
      = LABELS_REGEX.flatMap (fun p =>
          p.2.flatMap (fun rx =>
            (o.get_text rx).flatMap (fun txt =>
              (finditer rx.regex txt).map (labelRecord p.1 rx)))) := by
    simp only [find_labels, foldl_append_singleton,
      foldl_append_flat, List.nil_append]
  refine ⟨fun t => rfl, ?_, ?_⟩
  · show Except.ok (find_packager_codes o) = _
    rw [hp]
  · show Except.ok (find_labels o) = _
    rw [hl]
